import Mathlib

/-!
Verification of the camera-and-identification control loop of the
Object-Identifier web application.

The development shallowly embeds the relevant parts of the source:

* `utils/imageUtils.ts` — `dataUrlToBase64`
* `services/aiService.ts` — the text post-processing of
  `generateVisionContent` and `getQuickObjectName`
* `hooks/useCamera.ts` — `switchCamera`, `setZoomValue` and the initial
  device selection of `enumerateDevices`
* `components/CameraView.tsx` — the crop computation of `handleVideoClick`
  and the identification loop controller (`identifyFrame`, the ambient
  real-time effect, tap handling and the error timers), modelled as a
  state machine at browser event-loop granularity
* `App.tsx` — `resetState` and `handleSendMessage`

Strings are modelled as `List Char`; JavaScript `undefined` results are
modelled with `Option`; numeric pixel computations use `ℚ`.
-/

/-! ### JavaScript string primitives -/

/-- Whitespace recognised by `String.prototype.trim`, restricted to the
ASCII range (the source only ever trims model responses and chat input). -/
def isJsSpace (c : Char) : Bool :=
  (c == ' ') || (c == '\t') || (c == '\n') || (c == '\r') || (c == '\x0b') || (c == '\x0c')

/-- Embeds JavaScript `s.trim()`: removes leading and trailing whitespace. -/
def jsTrim (s : List Char) : List Char :=
  ((s.dropWhile isJsSpace).reverse.dropWhile isJsSpace).reverse

/-- Embeds JavaScript `s.split(sep)` for a single-character separator:
splits `s` on every occurrence of `sep`, keeping empty segments, so the
result always has one more element than there are separators. -/
def jsSplit (sep : Char) : List Char → List (List Char)
  | [] => [[]]
  | c :: rest =>
    if c = sep then [] :: jsSplit sep rest
    else
      match jsSplit sep rest with
      | h :: t => (c :: h) :: t
      | [] => [[c]]

/-- Embeds JavaScript `haystack.includes(needle)`: contiguous-substring
containment. -/
def jsIncludes (needle : List Char) : List Char → Bool
  | [] => decide (needle = [])
  | c :: rest => needle.isPrefixOf (c :: rest) || jsIncludes needle rest

/-! ### `utils/imageUtils.ts` -/

/-- Embeds `dataUrlToBase64` (`utils/imageUtils.ts`):
`dataUrl.split(',')[1]`.  Indexing past the end of a JavaScript array
yields `undefined`, modelled as `none`. -/
def dataUrlToBase64 (dataUrl : List Char) : Option (List Char) :=
  (jsSplit ',' dataUrl).get? 1

/-! ### `services/aiService.ts` -/

/-- Embeds the text handling of `generateVisionContent`
(`services/aiService.ts` lines 112–118): the raw `response.text` is
rejected when falsy (absent or empty), otherwise returned trimmed.  An
absent or empty response throws, modelled as `none`. -/
def generateVisionContentText (raw : List Char) : Option (List Char) :=
  if raw = [] then none else some (jsTrim raw)

/-- Embeds the `.replace(/(\r\n|\n|\r)/gm, " ")` step of
`getQuickObjectName`: every line break (a `\r\n` pair counting as one
match) becomes a single space. -/
def replaceLineBreaks : List Char → List Char
  | [] => []
  | '\r' :: '\n' :: rest => ' ' :: replaceLineBreaks rest
  | '\n' :: rest => ' ' :: replaceLineBreaks rest
  | '\r' :: rest => ' ' :: replaceLineBreaks rest
  | c :: rest => c :: replaceLineBreaks rest

/-- Embeds `getQuickObjectName` (`services/aiService.ts` lines 191–197):
the trimmed response with line breaks replaced by spaces, truncated at
the first period (`split(".")[0]`). -/
def getQuickObjectName (raw : List Char) : Option (List Char) :=
  match generateVisionContentText raw with
  | none => none
  | some r => some ((jsSplit '.' (replaceLineBreaks r)).headD [])

/-! ### `hooks/useCamera.ts` -/

/-- The fields of a `MediaDeviceInfo` the hook inspects. -/
structure MediaDeviceInfo where
  deviceId : List Char
  label : List Char
deriving DecidableEq

/-- Embeds `devices.findIndex(d => d.deviceId === currentDeviceId)`:
`-1` when no device matches (including when `currentDeviceId` is
`undefined`, modelled as `none`). -/
def jsFindIndex (devices : List MediaDeviceInfo) (cur : Option (List Char)) : Int :=
  match devices.findIdx? (fun d => decide (cur = some d.deviceId)) with
  | some i => (i : Int)
  | none => -1

/-- Embeds `switchCamera` (`hooks/useCamera.ts` lines 163–168): no-op
below two devices, otherwise select the device at
`(currentIndex + 1) % devices.length`. -/
def switchCamera (devices : List MediaDeviceInfo) (cur : Option (List Char)) :
    Option (List Char) :=
  if devices.length < 2 then cur
  else
    let currentIndex := jsFindIndex devices cur
    let nextIndex := ((currentIndex + 1) % (devices.length : Int)).toNat
    match devices.get? nextIndex with
    | some d => some d.deviceId
    | none => cur

/-- Embeds `d.label.toLowerCase().includes('back')`; `toLowerCase` is
modelled by `Char.toLower`, faithful on the ASCII range. -/
def labelHasBack (label : List Char) : Bool :=
  jsIncludes ("back".toList) (label.map Char.toLower)

/-- Embeds the initial device selection of `enumerateDevices`
(`hooks/useCamera.ts` lines 109–113):
`backCamera?.deviceId || videoDevices[0].deviceId`.  The JavaScript `||`
falls through when the found device's `deviceId` is the empty string. -/
def initialSelection (videoDevices : List MediaDeviceInfo) : Option (List Char) :=
  match videoDevices with
  | [] => none
  | d0 :: rest =>
    match (d0 :: rest).find? (fun d => labelHasBack d.label) with
    | some b => if b.deviceId = [] then some d0.deviceId else some b.deviceId
    | none => some d0.deviceId

/-- The zoom part of the `CameraCapabilities` structure of the hook. -/
structure ZoomCapability where
  isSupported : Bool
  min : ℚ
  max : ℚ
  step : ℚ
deriving DecidableEq

/-- Embeds `setZoomValue` (`hooks/useCamera.ts` lines 173–185).  Returns
the observable zoom state after the call.  The function returns early
when zoom is unsupported or no stream is live; otherwise it stores the
requested value unchanged before attempting the asynchronous hardware
apply, whose success (`applyOk`) it ignores. -/
def setZoomValue (cap : ZoomCapability) (hasStream : Bool) (zoom : ℚ)
    (value : ℚ) (applyOk : Bool) : ℚ :=
  if cap.isSupported = false ∨ hasStream = false then zoom
  else
    let _ := applyOk
    value

/-! ### `components/CameraView.tsx` — frame sampling and tap crop -/

/-- The crop rectangle passed from `handleVideoClick` to `identifyFrame`. -/
structure Crop where
  sx : ℚ
  sy : ℚ
  sWidth : ℚ
  sHeight : ℚ
deriving DecidableEq

/-- Embeds the processing-canvas width set by `identifyFrame`
(`components/CameraView.tsx` line 121): `canvas.width = 640`. -/
def canvasWidth : ℚ := 640

/-- Embeds the processing-canvas height set by `identifyFrame`
(line 122): `canvas.height = 640 / (video.videoWidth / video.videoHeight)`. -/
def canvasHeight (videoWidth videoHeight : ℚ) : ℚ :=
  640 / (videoWidth / videoHeight)

/-- Embeds the crop computation of `handleVideoClick`
(`components/CameraView.tsx` lines 200–209): a 150×150 box around the
tap, with the tap coordinates scaled by `video.videoWidth / rect.width`
(the native video resolution over the displayed size) and the origin
clamped at zero only. -/
def handleVideoClickCrop (videoWidth videoHeight rectWidth rectHeight x y : ℚ) : Crop :=
  let cropSize : ℚ := 150
  let scaleX := videoWidth / rectWidth
  let scaleY := videoHeight / rectHeight
  { sx := max 0 (x * scaleX - cropSize / 2)
    sy := max 0 (y * scaleY - cropSize / 2)
    sWidth := cropSize
    sHeight := cropSize }

/-! ### `App.tsx` — application state, `resetState`, `handleSendMessage` -/

/-- Message author tag. -/
inductive Author
  | user
  | ai
deriving DecidableEq

/-- A chat message.  `uid` models JavaScript object identity (the source
removes a message with reference equality `msg !== newUserMessage`). -/
structure Message where
  author : Author
  text : List Char
  uid : Nat
deriving DecidableEq

/-- The view selector of the application. -/
inductive View
  | home
  | camera
  | results
deriving DecidableEq

/-- The application-level state of `App.tsx`. -/
structure AppState where
  capturedImage : Option (List Char)
  isLoading : Bool
  messages : List Message
  error : Option (List Char)
  configError : Option (List Char)
  currentView : View
deriving DecidableEq

/-- Embeds `resetState` (`App.tsx` lines 35–42): clears everything except
`configError`, which the source deliberately keeps ("Do not reset
configError, as it's a persistent issue until fixed"). -/
def resetState (a : AppState) : AppState :=
  { a with capturedImage := none, isLoading := false, messages := [],
           error := none, currentView := View.home }

/-- How the awaited `getFollowUpAnswer` call settles. -/
inductive FollowUpOutcome
  | ok (response : List Char)
  | configErr (msg : List Char)
  | err (msg : List Char)
deriving DecidableEq

/-- Embeds `handleSendMessage` (`App.tsx` lines 83–112) end to end for one
outcome of the awaited call.  `uid` is the identity of the new user
message, `auid` that of a successful AI reply. -/
def handleSendMessage (a : AppState) (userInput : List Char) (uid auid : Nat)
    (outcome : FollowUpOutcome) : AppState :=
  if a.capturedImage = none ∨ jsTrim userInput = [] ∨ a.isLoading = true then a
  else
    let newUserMessage : Message := ⟨Author.user, userInput, uid⟩
    let a1 := { a with messages := a.messages ++ [newUserMessage],
                       isLoading := true, error := none }
    match outcome with
    | FollowUpOutcome.ok resp =>
        { a1 with messages := a1.messages ++ [⟨Author.ai, resp, auid⟩],
                  isLoading := false }
    | FollowUpOutcome.configErr m =>
        { a1 with configError := some m, isLoading := false }
    | FollowUpOutcome.err m =>
        { a1 with error := some m,
                  messages := a1.messages.filter (fun msg => msg != newUserMessage),
                  isLoading := false }

/-!
### `components/CameraView.tsx` — the identification loop controller

The controller is modelled as a state machine at browser event-loop
granularity: each external event (a user interaction, a timer callback,
or the settlement of the awaited identification call) runs one
synchronous segment of the source, including the React effect of lines
57–80 whenever its dependencies `[isRealtimeMode, isFocusedIdentification]`
changed during the segment.  Pending `setTimeout` handles are modelled as
`Option Nat` fields holding their delay in milliseconds (`clearTimeout`
sets them back to `none`); the effect's `isCancelled` closure flag is
modelled by `loopEpoch`, incremented each time the effect's cleanup runs,
so that a continuation belonging to a superseded closure is recognised by
its stale epoch.  The video element and the 2d canvas contexts are
assumed available, matching the guards of `identifyFrame` line 111 that
only rule out a missing video.
-/

/-- Which call is outstanding: the ambient loop's call (tagged with the
`loopEpoch` of the effect closure that issued it) or a tap-focused call. -/
inductive CallKind
  | ambient (epoch : Nat)
  | focused
deriving DecidableEq

/-- How an identification call settles, mirroring the catch clauses of
`identifyFrame` lines 143–158. -/
inductive CallResult
  | success (name : List Char)
  | configErr (msg : List Char)
  | rateLimitErr (msg : List Char)
  | transientErr
deriving DecidableEq

/-- The controller state: the React state of `CameraView` (plus the
`onConfigError` destination in `App`), its timeout refs, and the list of
outstanding identification calls (`inFlightCalls`, which the code keeps
implicitly in the continuations parked on the awaited promise). -/
structure Ctrl where
  isRealtimeMode : Bool
  isIdentifying : Bool
  isFocusedIdentification : Bool
  identifiedObject : Option (List Char)
  rateLimitError : Option (List Char)
  appConfigError : Option (List Char)
  inFlightCalls : List CallKind
  realtimeTimer : Option Nat
  focusedTimer : Option Nat
  rateLimitTimer : Option Nat
  loopEpoch : Nat
deriving DecidableEq

/-- The initial controller state on mount. -/
def Ctrl.init : Ctrl :=
  { isRealtimeMode := false, isIdentifying := false,
    isFocusedIdentification := false, identifiedObject := none,
    rateLimitError := none, appConfigError := none, inFlightCalls := [],
    realtimeTimer := none, focusedTimer := none, rateLimitTimer := none,
    loopEpoch := 0 }

/-- The external events that drive the controller. -/
inductive Event
  | toggleRealtime
  | tap
  | realtimeTimerFire
  | focusedTimerFire
  | rateLimitTimerFire
  | complete (r : CallResult)
deriving DecidableEq

/-- One turn of `identifyAndRepeat` (lines 65–71): `identifyFrame` is
invoked; its guard (line 111) drops the attempt when a call is already
in flight, in which case the awaited promise resolves at once and the
loop reschedules itself for 5000 ms; otherwise a call is issued and the
in-flight flag set (line 113).  The second component counts issued
calls. -/
def startCycle (s : Ctrl) : Ctrl × Nat :=
  if s.isIdentifying then ({ s with realtimeTimer := some 5000 }, 0)
  else ({ s with isIdentifying := true,
                 inFlightCalls := s.inFlightCalls ++ [CallKind.ambient s.loopEpoch] }, 1)

/-- One run of the real-time effect (lines 57–80) after its dependencies
changed: the cleanup of the previous closure (set `isCancelled`, clear
the pending reschedule), then the body — bail out when real-time mode is
off or a focused identification is active (clearing the ambient result
when not focused), else start a cycle. -/
def runLoopEffect (s : Ctrl) : Ctrl × Nat :=
  let s1 := { s with loopEpoch := s.loopEpoch + 1, realtimeTimer := none }
  if s1.isRealtimeMode = false ∨ s1.isFocusedIdentification = true then
    if s1.isFocusedIdentification = false then
      ({ s1 with identifiedObject := none }, 0)
    else (s1, 0)
  else startCycle s1

/-- The catch/then clauses of `identifyFrame` (lines 140–155) applied to
a settled call: a success stores the label; a configuration error is
propagated to `App` and turns real-time mode off; a rate-limit error
stores the banner message, turns real-time mode off and arms the 5000 ms
cooldown timer; other errors are swallowed. -/
def applyResult (s : Ctrl) (r : CallResult) : Ctrl :=
  match r with
  | CallResult.success name => { s with identifiedObject := some name }
  | CallResult.configErr m =>
      { s with appConfigError := some m, isRealtimeMode := false }
  | CallResult.rateLimitErr m =>
      { s with rateLimitError := some m, isRealtimeMode := false,
               rateLimitTimer := some 5000 }
  | CallResult.transientErr => s

/-- One event of the controller.  Returns the next state and the number
of identification calls issued during the event. -/
def step (s : Ctrl) (e : Event) : Ctrl × Nat :=
  match e with
  | Event.toggleRealtime =>
      -- the Real-time AI button (line 309) flips the mode; the effect reruns
      runLoopEffect { s with isRealtimeMode := !s.isRealtimeMode }
  | Event.tap =>
      -- handleVideoClick (lines 188–219): dropped unless real-time mode is
      -- on and no call is in flight (line 190); otherwise a focused call is
      -- issued through identifyFrame, whose own guard sees the same flag
      if s.isRealtimeMode = false ∨ s.isIdentifying = true then (s, 0)
      else
        let s1 := { s with isFocusedIdentification := true, isIdentifying := true,
                           inFlightCalls := s.inFlightCalls ++ [CallKind.focused] }
        if s.isFocusedIdentification = true then (s1, 1)
        else
          -- the focus flag flipped, so the effect reruns: its cleanup cancels
          -- the ambient reschedule; its body bails out (focused is set)
          ({ s1 with loopEpoch := s1.loopEpoch + 1, realtimeTimer := none }, 1)
  | Event.realtimeTimerFire =>
      match s.realtimeTimer with
      | none => (s, 0)
      | some _ => startCycle { s with realtimeTimer := none }
  | Event.focusedTimerFire =>
      -- the 5000 ms hold of a focused result expires (lines 216–218)
      match s.focusedTimer with
      | none => (s, 0)
      | some _ =>
        let s1 := { s with focusedTimer := none, isFocusedIdentification := false }
        if s.isFocusedIdentification = true then runLoopEffect s1 else (s1, 0)
  | Event.rateLimitTimerFire =>
      -- the 5000 ms cooldown expires (line 153)
      match s.rateLimitTimer with
      | none => (s, 0)
      | some _ => ({ s with rateLimitTimer := none, rateLimitError := none }, 0)
  | Event.complete r =>
      match s.inFlightCalls with
      | [] => (s, 0)
      | k :: rest =>
        let s1 := applyResult s r
        let s2 := { s1 with isIdentifying := false, inFlightCalls := rest }
        -- the caller's continuation: the ambient loop reschedules unless its
        -- closure was cancelled (line 68); a focused call arms the hold timer
        -- (lines 215–218)
        let s3 :=
          match k with
          | CallKind.ambient ep =>
              if ep = s2.loopEpoch then { s2 with realtimeTimer := some 5000 } else s2
          | CallKind.focused => { s2 with focusedTimer := some 5000 }
        -- the effect reruns iff the error path turned real-time mode off
        if s3.isRealtimeMode = s.isRealtimeMode then (s3, 0) else runLoopEffect s3

/-- Runs a list of events from a state, accumulating issued calls. -/
def run (s : Ctrl) : List Event → Ctrl × Nat
  | [] => (s, 0)
  | e :: evs =>
    let p := step s e
    let q := run p.1 evs
    (q.1, p.2 + q.2)

/-! ### Lemmas about the string primitives -/

theorem jsSplit_ne_nil (sep : Char) (s : List Char) : jsSplit sep s ≠ [] := by
  induction s with
  | nil => simp [jsSplit]
  | cons c rest ih =>
    rw [jsSplit]
    by_cases hc : c = sep
    · simp [hc]
    · simp only [if_neg hc]
      cases h : jsSplit sep rest with
      | nil => exact absurd h ih
      | cons a t => simp

theorem jsSplit_head (sep : Char) (s : List Char) :
    (jsSplit sep s).head? = some (s.takeWhile (fun c => c != sep)) := by
  induction s with
  | nil => simp [jsSplit]
  | cons c rest ih =>
    rw [jsSplit]
    by_cases hc : c = sep
    · simp [hc, List.takeWhile_cons]
    · simp only [if_neg hc]
      cases h : jsSplit sep rest with
      | nil => exact absurd h (jsSplit_ne_nil sep rest)
      | cons a t =>
        rw [h] at ih
        simp only [List.head?_cons, Option.some.injEq] at ih
        simp [List.takeWhile_cons, bne_iff_ne, hc, ih]

theorem jsSplit_of_not_mem (sep : Char) (s : List Char) (h : sep ∉ s) :
    jsSplit sep s = [s] := by
  induction s with
  | nil => simp [jsSplit]
  | cons c rest ih =>
    simp only [List.mem_cons, not_or] at h
    rw [jsSplit, if_neg (fun hc => h.1 hc.symm), ih h.2]

/-! ### Claim C9 — `dataUrlToBase64` -/

/-- Claim C9, counterexample: on `"a,b,c"`, which contains a comma, the
function returns `"b"`, not the substring `"b,c"` strictly after the
first comma as the claim states. -/
theorem c9_counterexample :
    dataUrlToBase64 ("a,b,c".toList) = some ("b".toList) ∧
    ("b".toList : List Char) ≠ ("b,c".toList) := by
  constructor
  · decide
  · decide

/-- Claim C9 (amended): for an input containing at least one comma,
`dataUrlToBase64` returns the segment strictly between the first comma
and the following comma (or the end of the string); for an input with no
comma it returns no string value (the element at index 1 of the split is
absent), so callers must only pass well-formed data URLs. -/
theorem c9_dataUrlToBase64 (s : List Char) :
    (',' ∈ s →
      dataUrlToBase64 s =
        some (((s.dropWhile (fun c => c != ',')).tail).takeWhile (fun c => c != ','))) ∧
    (',' ∉ s → dataUrlToBase64 s = none) := by
  constructor
  · intro hmem
    induction s with
    | nil => cases hmem
    | cons c rest ih =>
      by_cases hc : c = ','
      · subst hc
        show (jsSplit ',' (',' :: rest)).get? 1 = _
        rw [jsSplit, if_pos rfl]
        have hhead := jsSplit_head ',' rest
        cases h : jsSplit ',' rest with
        | nil => exact absurd h (jsSplit_ne_nil ',' rest)
        | cons a t =>
          rw [h] at hhead
          simp only [List.head?_cons, Option.some.injEq] at hhead
          simp [hhead, List.dropWhile_cons]
      · have hmem' : ',' ∈ rest := by
          rcases List.mem_cons.mp hmem with h | h
          · exact absurd h.symm hc
          · exact h
        show (jsSplit ',' (c :: rest)).get? 1 = _
        rw [jsSplit, if_neg hc]
        cases h : jsSplit ',' rest with
        | nil => exact absurd h (jsSplit_ne_nil ',' rest)
        | cons a t =>
          have := ih hmem'
          rw [show dataUrlToBase64 rest = (jsSplit ',' rest).get? 1 from rfl, h] at this
          simp only [List.get?_cons_succ] at this ⊢
          rw [this]
          simp [List.dropWhile_cons, bne_iff_ne, hc]
  · intro hmem
    show (jsSplit ',' s).get? 1 = none
    rw [jsSplit_of_not_mem ',' s hmem]
    rfl

/-- Claim C9 witness: the amended statement evaluated on `"x,y,z"` (comma
present) and on `"xyz"` (no comma). -/
theorem c9_witness :
    ((',' ∈ "x,y,z".toList) ∧
      dataUrlToBase64 ("x,y,z".toList) =
        some (((("x,y,z".toList).dropWhile (fun c => c != ',')).tail).takeWhile
          (fun c => c != ','))) ∧
    ((',' ∉ "xyz".toList) ∧ dataUrlToBase64 ("xyz".toList) = none) :=
  ⟨⟨by decide, (c9_dataUrlToBase64 ("x,y,z".toList)).1 (by decide)⟩,
   ⟨by decide, (c9_dataUrlToBase64 ("xyz".toList)).2 (by decide)⟩⟩

/-! ### Claim C10 — `getQuickObjectName` -/

theorem replaceLineBreaks_no_break (l : List Char) :
    '\n' ∉ replaceLineBreaks l ∧ '\r' ∉ replaceLineBreaks l := by
  induction l using replaceLineBreaks.induct with
  | case1 => exact ⟨by simp [replaceLineBreaks], by simp [replaceLineBreaks]⟩
  | case2 rest ih =>
    rw [replaceLineBreaks]
    refine ⟨?_, ?_⟩ <;> simp only [List.mem_cons, not_or]
    · exact ⟨by decide, ih.1⟩
    · exact ⟨by decide, ih.2⟩
  | case3 rest ih =>
    rw [replaceLineBreaks]
    refine ⟨?_, ?_⟩ <;> simp only [List.mem_cons, not_or]
    · exact ⟨by decide, ih.1⟩
    · exact ⟨by decide, ih.2⟩
  | case4 rest h ih =>
    rw [replaceLineBreaks]
    · refine ⟨?_, ?_⟩ <;> simp only [List.mem_cons, not_or]
      · exact ⟨by decide, ih.1⟩
      · exact ⟨by decide, ih.2⟩
    · exact h
  | case5 c rest h1 h2 h3 ih =>
    rw [replaceLineBreaks]
    · refine ⟨?_, ?_⟩ <;> simp only [List.mem_cons, not_or]
      · exact ⟨fun h => h2 h.symm, ih.1⟩
      · exact ⟨fun h => h3 h.symm, ih.2⟩
    · exact h1
    · exact h2
    · exact h3

/-- Claim C10: for every successful call, `getQuickObjectName` returns
the prefix before the first period of the trimmed response after all
line breaks are replaced by spaces, and that string contains no newline,
no carriage return and no period. -/
theorem c10_getQuickObjectName (raw : List Char) (h : raw ≠ []) :
    getQuickObjectName raw =
      some ((replaceLineBreaks (jsTrim raw)).takeWhile (fun c => c != '.')) ∧
    ∀ s, getQuickObjectName raw = some s → '\n' ∉ s ∧ '\r' ∉ s ∧ '.' ∉ s := by
  have heq : getQuickObjectName raw =
      some ((replaceLineBreaks (jsTrim raw)).takeWhile (fun c => c != '.')) := by
    rw [getQuickObjectName, generateVisionContentText, if_neg h]
    show some ((jsSplit '.' (replaceLineBreaks (jsTrim raw))).headD []) = _
    rw [List.headD_eq_head?, jsSplit_head]
    rfl
  refine ⟨heq, fun s hs => ?_⟩
  rw [heq] at hs
  have hs' : (replaceLineBreaks (jsTrim raw)).takeWhile (fun c => c != '.') = s := by
    injection hs
  subst hs'
  have hsub := (List.takeWhile_sublist
    (l := replaceLineBreaks (jsTrim raw)) (fun c => c != '.')).subset
  have hno := replaceLineBreaks_no_break (jsTrim raw)
  refine ⟨fun hmem => hno.1 (hsub hmem), fun hmem => hno.2 (hsub hmem), fun hmem => ?_⟩
  have := List.mem_takeWhile_imp hmem
  simp at this

/-- Claim C10 witness: the theorem evaluated on the response
`"A red cup.\nShiny."`. -/
theorem c10_witness :
    ("A red cup.\nShiny.".toList ≠ []) ∧
    (getQuickObjectName ("A red cup.\nShiny.".toList) =
       some ((replaceLineBreaks (jsTrim ("A red cup.\nShiny.".toList))).takeWhile
         (fun c => c != '.')) ∧
     ∀ s, getQuickObjectName ("A red cup.\nShiny.".toList) = some s →
       '\n' ∉ s ∧ '\r' ∉ s ∧ '.' ∉ s) :=
  ⟨by decide, c10_getQuickObjectName ("A red cup.\nShiny.".toList) (by decide)⟩

/-! ### Claim C2 — the tap crop versus the working frame -/

/-- Claim C2, theorem exhibiting the bug: with a 1280×720 video displayed
at 640×360 and a tap at (600, 300) — inside the displayed element — the
crop origin is scaled by `videoWidth / rect.width` into the native
1280-wide space, not the 640-wide working space of the processing
canvas, and no right or bottom clamping is applied: the resulting crop
rectangle starts past the working frame's width and overruns both its
width and its height. -/
theorem c2_crop_out_of_bounds :
    ((0:ℚ) ≤ 600 ∧ (600:ℚ) ≤ 640 ∧ (0:ℚ) ≤ 300 ∧ (300:ℚ) ≤ 360) ∧
    (handleVideoClickCrop 1280 720 640 360 600 300).sx = 1125 ∧
    canvasWidth < (handleVideoClickCrop 1280 720 640 360 600 300).sx ∧
    canvasWidth <
      (handleVideoClickCrop 1280 720 640 360 600 300).sx +
        (handleVideoClickCrop 1280 720 640 360 600 300).sWidth ∧
    canvasHeight 1280 720 = 360 ∧
    canvasHeight 1280 720 <
      (handleVideoClickCrop 1280 720 640 360 600 300).sy +
        (handleVideoClickCrop 1280 720 640 360 600 300).sHeight := by
  refine ⟨⟨by norm_num, by norm_num, by norm_num, by norm_num⟩, ?_, ?_, ?_, ?_, ?_⟩ <;>
    norm_num [handleVideoClickCrop, canvasWidth, canvasHeight]

/-! ### Claim C3 — `setZoomValue` -/

/-- Claim C3, counterexample: with zoom capability min 1, max 4, step ½
and a live stream, requesting zoom 10 leaves observable zoom 10 (the
claim says 4), and requesting 0 leaves 0 (the claim says 1): the setter
performs no clamping. -/
theorem c3_counterexample :
    setZoomValue ⟨true, 1, 4, 1/2⟩ true 1 10 true = 10 ∧ (10:ℚ) ≠ 4 ∧
    setZoomValue ⟨true, 1, 4, 1/2⟩ true 1 0 true = 0 ∧ (0:ℚ) ≠ 1 := by
  refine ⟨rfl, by norm_num, rfl, by norm_num⟩

/-- Claim C3 (amended): `setZoomValue` rejects (is a no-op on observable
zoom) when the zoom capability is unsupported or no stream is live;
otherwise it updates the observable zoom state immediately to the
requested value, unclamped, and the result never depends on whether the
asynchronous hardware apply succeeds. -/
theorem c3_setZoomValue (cap : ZoomCapability) (hasStream : Bool)
    (zoom value : ℚ) (a b : Bool) :
    (cap.isSupported = true → hasStream = true →
       setZoomValue cap hasStream zoom value a = value) ∧
    ((cap.isSupported = false ∨ hasStream = false) →
       setZoomValue cap hasStream zoom value a = zoom) ∧
    setZoomValue cap hasStream zoom value a = setZoomValue cap hasStream zoom value b := by
  refine ⟨fun h1 h2 => ?_, fun h => ?_, ?_⟩
  · simp [setZoomValue, h1, h2]
  · simp [setZoomValue, h]
  · unfold setZoomValue
    split <;> rfl

/-- Claim C3 witness: the amended statement at the capability of the
scenario. -/
theorem c3_witness :
    setZoomValue ⟨true, 1, 4, 1/2⟩ true 1 10 false = 10 :=
  (c3_setZoomValue ⟨true, 1, 4, 1/2⟩ true 1 10 false true).1 rfl rfl

/-! ### Claim C6 — `switchCamera` -/

/-- Claim C6: `switchCamera` is a no-op when fewer than two devices
exist, and otherwise selects the device at index
(current index + 1) modulo the device count. -/
theorem c6_switchCamera (devices : List MediaDeviceInfo) (cur : Option (List Char)) :
    (devices.length < 2 → switchCamera devices cur = cur) ∧
    (∀ i d, 2 ≤ devices.length →
      devices.findIdx? (fun d => decide (cur = some d.deviceId)) = some i →
      devices.get? ((i + 1) % devices.length) = some d →
      switchCamera devices cur = some d.deviceId) := by
  constructor
  · intro h
    simp [switchCamera, h]
  · intro i d hlen hfind hget
    have hnl : ¬ devices.length < 2 := by omega
    rw [switchCamera, if_neg hnl]
    have hidx : jsFindIndex devices cur = (i : Int) := by
      rw [jsFindIndex, hfind]
    rw [hidx]
    have hcast : (((i : Int) + 1) % ((devices.length : Nat) : Int)).toNat
        = (i + 1) % devices.length := by
      have h1 : ((i : Int) + 1) = (((i + 1 : Nat) : Int)) := by push_cast; ring
      rw [h1, ← Int.natCast_mod, Int.toNat_natCast]
    show (match devices.get? ((((i : Int) + 1) % ((devices.length : Nat) : Int)).toNat) with
          | some d => some d.deviceId
          | none => cur) = some d.deviceId
    rw [hcast, hget]

/-- Claim C6 witness: a two-device list where switching from the first
device selects the second, and a single-device list where switching is a
no-op. -/
theorem c6_witness :
    (2 ≤ ([⟨"a".toList, "f".toList⟩, ⟨"b".toList, "g".toList⟩] :
        List MediaDeviceInfo).length ∧
      switchCamera [⟨"a".toList, "f".toList⟩, ⟨"b".toList, "g".toList⟩]
        (some ("a".toList)) = some (("b".toList)) ) ∧
    (([⟨"a".toList, "f".toList⟩] : List MediaDeviceInfo).length < 2 ∧
      switchCamera [⟨"a".toList, "f".toList⟩] (some ("a".toList)) = some ("a".toList)) :=
  ⟨⟨by decide,
    (c6_switchCamera [⟨"a".toList, "f".toList⟩, ⟨"b".toList, "g".toList⟩]
      (some ("a".toList))).2 0 ⟨"b".toList, "g".toList⟩ (by decide) (by decide) (by decide)⟩,
   ⟨by decide,
    (c6_switchCamera [⟨"a".toList, "f".toList⟩] (some ("a".toList))).1 (by decide)⟩⟩

/-! ### Claim C7 — initial device selection -/

/-- The two-device scenario list of the claim. -/
def frontCam : MediaDeviceInfo := ⟨"front-id".toList, "Front Camera".toList⟩

/-- The back device of the scenario. -/
def backCam : MediaDeviceInfo := ⟨"back-id".toList, "Back Camera".toList⟩

/-- Claim C7, counterexample: in the device list
`[{deviceId "id1", label "Front Camera"}, {deviceId "", label "Back Camera"}]`
the first device whose label contains "back" is the second one, yet the
initial selection is `"id1"`, the first device's id, because the
JavaScript `||` treats the empty `deviceId` string as falsy. -/
theorem c7_counterexample :
    ([⟨"id1".toList, "Front Camera".toList⟩,
      ⟨([] : List Char), "Back Camera".toList⟩] : List MediaDeviceInfo).find?
        (fun d => labelHasBack d.label) = some ⟨[], "Back Camera".toList⟩ ∧
    initialSelection
      [⟨"id1".toList, "Front Camera".toList⟩, ⟨([] : List Char), "Back Camera".toList⟩]
      = some ("id1".toList) ∧
    ("id1".toList : List Char) ≠ ([] : List Char) := by
  refine ⟨by decide, by decide, by decide⟩

/-- Claim C7 (amended): for a non-empty device list the initial selection
is the first device whose label contains "back" case-insensitively,
provided its `deviceId` is non-empty; when no such device exists, or its
`deviceId` is the empty string, the first device is selected.  In
particular, with devices `[frontCam, backCam]` the initial selection is
`backCam`, one switch selects `frontCam` and a second switch returns to
`backCam`. -/
theorem c7_initialSelection (d0 : MediaDeviceInfo) (rest : List MediaDeviceInfo) :
    ((∀ b, (d0 :: rest).find? (fun d => labelHasBack d.label) = some b →
        b.deviceId ≠ [] → initialSelection (d0 :: rest) = some b.deviceId) ∧
     (∀ b, (d0 :: rest).find? (fun d => labelHasBack d.label) = some b →
        b.deviceId = [] → initialSelection (d0 :: rest) = some d0.deviceId) ∧
     ((d0 :: rest).find? (fun d => labelHasBack d.label) = none →
        initialSelection (d0 :: rest) = some d0.deviceId)) ∧
    (initialSelection [frontCam, backCam] = some backCam.deviceId ∧
     switchCamera [frontCam, backCam] (some backCam.deviceId) = some frontCam.deviceId ∧
     switchCamera [frontCam, backCam] (some frontCam.deviceId) = some backCam.deviceId) := by
  refine ⟨⟨fun b hfind hne => ?_, fun b hfind he => ?_, fun hfind => ?_⟩, ?_⟩
  · rw [initialSelection, hfind]
    show (if b.deviceId = [] then some d0.deviceId else some b.deviceId) = some b.deviceId
    rw [if_neg hne]
  · rw [initialSelection, hfind]
    show (if b.deviceId = [] then some d0.deviceId else some b.deviceId) = some d0.deviceId
    rw [if_pos he]
  · rw [initialSelection, hfind]
  · refine ⟨by decide, by decide, by decide⟩

/-- Claim C7 witness: the amended statement applied to the list
`[backCam, frontCam]`, whose back camera has the non-empty id
`"back-id"`. -/
theorem c7_witness :
    ((backCam :: [frontCam]).find? (fun d => labelHasBack d.label) = some backCam) ∧
    backCam.deviceId ≠ [] ∧
    initialSelection (backCam :: [frontCam]) = some backCam.deviceId :=
  ⟨by decide, by decide,
   (c7_initialSelection backCam [frontCam]).1.1 backCam (by decide) (by decide)⟩

/-! ### Claim C8 — `handleSendMessage` on a failed follow-up call -/

/-- A concrete chat state: an image is captured, one AI message is in the
history, nothing is loading. -/
def chatApp : AppState :=
  { capturedImage := some ("img".toList), isLoading := false,
    messages := [⟨Author.ai, "a mug".toList, 0⟩], error := none,
    configError := none, currentView := View.results }

/-- Claim C8, counterexample: when the follow-up call fails with a
configuration error, the user's triggering message is NOT dropped from
the history — it is still the last element — so "when a follow-up call
fails, the message is silently dropped" does not hold for every
failure. -/
theorem c8_counterexample :
    (handleSendMessage chatApp ("why".toList) 1 2
        (FollowUpOutcome.configErr ("bad key".toList))).messages
      = [⟨Author.ai, "a mug".toList, 0⟩, ⟨Author.user, "why".toList, 1⟩] ∧
    (⟨Author.user, "why".toList, 1⟩ : Message) ∈
      (handleSendMessage chatApp ("why".toList) 1 2
        (FollowUpOutcome.configErr ("bad key".toList))).messages := by
  refine ⟨by decide, by decide⟩

/-- Claim C8 (amended): when a follow-up call fails with an error other
than a configuration error, the user's triggering chat message is
silently dropped from the history (not marked as failed) and all earlier
messages are unchanged — the resulting history is exactly the previous
one; on a configuration error the message is kept and the configuration
error is surfaced instead. -/
theorem c8_handleSendMessage (a : AppState) (input : List Char) (uid auid : Nat)
    (m : List Char) (himg : a.capturedImage ≠ none) (hin : jsTrim input ≠ [])
    (hload : a.isLoading = false)
    (hfresh : ∀ msg ∈ a.messages, msg.uid ≠ uid) :
    ((handleSendMessage a input uid auid (FollowUpOutcome.err m)).messages = a.messages ∧
     (handleSendMessage a input uid auid (FollowUpOutcome.err m)).error = some m) ∧
    ((handleSendMessage a input uid auid (FollowUpOutcome.configErr m)).messages
        = a.messages ++ [⟨Author.user, input, uid⟩] ∧
     (handleSendMessage a input uid auid (FollowUpOutcome.configErr m)).configError
        = some m) := by
  have hguard : ¬(a.capturedImage = none ∨ jsTrim input = [] ∨ a.isLoading = true) := by
    push_neg
    exact ⟨himg, hin, by simp [hload]⟩
  have hfilter : (a.messages ++ [(⟨Author.user, input, uid⟩ : Message)]).filter
      (fun msg => msg != (⟨Author.user, input, uid⟩ : Message)) = a.messages := by
    rw [List.filter_append]
    have h1 : a.messages.filter
        (fun msg => msg != (⟨Author.user, input, uid⟩ : Message)) = a.messages := by
      rw [List.filter_eq_self]
      intro msg hmsg
      rw [bne_iff_ne]
      intro hcontra
      exact hfresh msg hmsg (by rw [hcontra])
    have h2 : ([(⟨Author.user, input, uid⟩ : Message)]).filter
        (fun msg => msg != (⟨Author.user, input, uid⟩ : Message)) = [] := by
      simp
    rw [h1, h2, List.append_nil]
  constructor
  · constructor
    · rw [handleSendMessage, if_neg hguard]
      exact hfilter
    · rw [handleSendMessage, if_neg hguard]
  · constructor
    · rw [handleSendMessage, if_neg hguard]
    · rw [handleSendMessage, if_neg hguard]

/-- Claim C8 witness: the amended statement at the concrete chat state. -/
theorem c8_witness :
    (chatApp.capturedImage ≠ none ∧ jsTrim ("why".toList) ≠ [] ∧
     chatApp.isLoading = false ∧ ∀ msg ∈ chatApp.messages, msg.uid ≠ 1) ∧
    ((handleSendMessage chatApp ("why".toList) 1 2
         (FollowUpOutcome.err ("oops".toList))).messages = chatApp.messages ∧
     (handleSendMessage chatApp ("why".toList) 1 2
         (FollowUpOutcome.err ("oops".toList))).error = some ("oops".toList)) :=
  ⟨⟨by decide, by decide, by decide, by decide⟩,
   (c8_handleSendMessage chatApp ("why".toList) 1 2 ("oops".toList)
     (by decide) (by decide) (by decide) (by decide)).1⟩

/-! ### Controller invariants -/

/-- The controller invariant: the in-flight flag counts the outstanding
calls exactly; when real-time mode is off no ambient reschedule is
pending; an outstanding ambient call never carries a future epoch, and a
stale (strictly past) epoch whenever real-time mode is off. -/
def GoodCtrl (s : Ctrl) : Prop :=
  s.inFlightCalls.length = (if s.isIdentifying = true then 1 else 0) ∧
  (s.isRealtimeMode = false → s.realtimeTimer = none) ∧
  ∀ ep, CallKind.ambient ep ∈ s.inFlightCalls →
    ep ≤ s.loopEpoch ∧ (s.isRealtimeMode = false → ep < s.loopEpoch)

theorem good_init : GoodCtrl Ctrl.init := by
  refine ⟨rfl, fun _ => rfl, fun ep hmem => ?_⟩
  simp [Ctrl.init] at hmem

theorem applyResult_inFlightCalls (s : Ctrl) (r : CallResult) :
    (applyResult s r).inFlightCalls = s.inFlightCalls := by
  cases r <;> rfl

theorem applyResult_isIdentifying (s : Ctrl) (r : CallResult) :
    (applyResult s r).isIdentifying = s.isIdentifying := by
  cases r <;> rfl

theorem applyResult_loopEpoch (s : Ctrl) (r : CallResult) :
    (applyResult s r).loopEpoch = s.loopEpoch := by
  cases r <;> rfl

theorem applyResult_realtimeTimer (s : Ctrl) (r : CallResult) :
    (applyResult s r).realtimeTimer = s.realtimeTimer := by
  cases r <;> rfl

theorem applyResult_isFocusedIdentification (s : Ctrl) (r : CallResult) :
    (applyResult s r).isFocusedIdentification = s.isFocusedIdentification := by
  cases r <;> rfl

theorem applyResult_focusedTimer (s : Ctrl) (r : CallResult) :
    (applyResult s r).focusedTimer = s.focusedTimer := by
  cases r <;> rfl

theorem applyResult_appConfigError (s : Ctrl) (r : CallResult) :
    (applyResult s r).appConfigError =
      (match r with
       | CallResult.configErr m => some m
       | _ => s.appConfigError) := by
  cases r <;> rfl

theorem good_startCycle (s : Ctrl)
    (hlen : s.inFlightCalls.length = (if s.isIdentifying = true then 1 else 0))
    (heps : ∀ ep, CallKind.ambient ep ∈ s.inFlightCalls → ep ≤ s.loopEpoch)
    (hrt : s.isRealtimeMode = true) :
    GoodCtrl (startCycle s).1 := by
  by_cases hid : s.isIdentifying = true
  · rw [startCycle, if_pos hid]
    rw [GoodCtrl]
    dsimp only
    refine And.intro ?_ (And.intro ?_ ?_)
    · exact hlen
    · simp [hrt]
    · intro ep hmem
      exact And.intro (heps ep hmem) (by simp [hrt])
  · rw [startCycle, if_neg hid]
    have hnil : s.inFlightCalls = [] := by
      rw [eq_false_of_ne_true hid] at hlen
      simpa using hlen
    rw [GoodCtrl]
    dsimp only
    refine And.intro ?_ (And.intro ?_ ?_)
    · simp [hnil]
    · simp [hrt]
    · intro ep hmem
      rw [hnil] at hmem
      simp only [List.nil_append, List.mem_singleton, CallKind.ambient.injEq] at hmem
      subst hmem
      exact And.intro (le_refl _) (by simp [hrt])

theorem good_runLoopEffect (s : Ctrl)
    (hlen : s.inFlightCalls.length = (if s.isIdentifying = true then 1 else 0))
    (heps : ∀ ep, CallKind.ambient ep ∈ s.inFlightCalls → ep ≤ s.loopEpoch) :
    GoodCtrl (runLoopEffect s).1 := by
  rw [runLoopEffect]
  by_cases h : s.isRealtimeMode = false ∨ s.isFocusedIdentification = true
  · rw [if_pos (by simpa using h)]
    by_cases h2 : s.isFocusedIdentification = false
    · rw [if_pos (by simpa using h2)]
      rw [GoodCtrl]
      dsimp only
      refine And.intro hlen (And.intro (fun _ => rfl) ?_)
      intro ep hmem
      have := heps ep hmem
      exact And.intro (Nat.le_succ_of_le this) (fun _ => Nat.lt_succ_of_le this)
    · rw [if_neg (by simpa using h2)]
      rw [GoodCtrl]
      dsimp only
      refine And.intro hlen (And.intro (fun _ => rfl) ?_)
      intro ep hmem
      have := heps ep hmem
      exact And.intro (Nat.le_succ_of_le this) (fun _ => Nat.lt_succ_of_le this)
  · rw [if_neg (by simpa using h)]
    push_neg at h
    have hrt : s.isRealtimeMode = true := by
      cases hb : s.isRealtimeMode
      · exact absurd hb h.1
      · rfl
    exact good_startCycle _ hlen
      (fun ep hmem => Nat.le_succ_of_le (heps ep hmem)) hrt

theorem good_step (s : Ctrl) (e : Event) (h : GoodCtrl s) : GoodCtrl (step s e).1 := by
  obtain ⟨hlen, htmr, heps⟩ := h
  cases e with
  | toggleRealtime =>
    exact good_runLoopEffect _ hlen (fun ep hmem => (heps ep hmem).1)
  | tap =>
    rw [step]
    by_cases hg : s.isRealtimeMode = false ∨ s.isIdentifying = true
    · rw [if_pos hg]
      exact ⟨hlen, htmr, heps⟩
    · rw [if_neg hg]
      push_neg at hg
      have hrt : s.isRealtimeMode = true := by
        cases hb : s.isRealtimeMode
        · exact absurd hb hg.1
        · rfl
      have hnil : s.inFlightCalls = [] := by
        rw [eq_false_of_ne_true hg.2] at hlen
        simpa using hlen
      by_cases hf : s.isFocusedIdentification = true
      · rw [if_pos hf]
        rw [GoodCtrl]
        dsimp only
        refine And.intro (by simp [hnil]) (And.intro (by simp [hrt]) ?_)
        intro ep hmem
        rw [hnil] at hmem
        simp at hmem
      · rw [if_neg hf]
        rw [GoodCtrl]
        dsimp only
        refine And.intro (by simp [hnil]) (And.intro (fun _ => rfl) ?_)
        intro ep hmem
        rw [hnil] at hmem
        simp at hmem
  | realtimeTimerFire =>
    rw [step]
    cases ht : s.realtimeTimer with
    | none => exact ⟨hlen, htmr, heps⟩
    | some d =>
      have hrt : s.isRealtimeMode = true := by
        cases hb : s.isRealtimeMode
        · rw [htmr hb] at ht; cases ht
        · rfl
      exact good_startCycle _ hlen (fun ep hmem => (heps ep hmem).1) hrt
  | focusedTimerFire =>
    rw [step]
    cases ht : s.focusedTimer with
    | none => exact ⟨hlen, htmr, heps⟩
    | some d =>
      by_cases hf : s.isFocusedIdentification = true
      · rw [if_pos hf]
        exact good_runLoopEffect _ hlen (fun ep hmem => (heps ep hmem).1)
      · rw [if_neg hf]
        exact ⟨hlen, htmr, heps⟩
  | rateLimitTimerFire =>
    rw [step]
    cases ht : s.rateLimitTimer with
    | none => exact ⟨hlen, htmr, heps⟩
    | some d =>
      exact ⟨hlen, htmr, heps⟩
  | complete r =>
    rw [step]
    cases hc : s.inFlightCalls with
    | nil => exact ⟨hlen, htmr, heps⟩
    | cons k rest =>
      have hid : s.isIdentifying = true := by
        cases hb : s.isIdentifying
        · rw [hb, hc] at hlen; simp at hlen
        · rfl
      have hrest : rest = [] := by
        rw [hid, hc] at hlen
        simpa using hlen
      subst hrest
      -- facts about the state after applyResult and the finally clause
      have hAcalls := applyResult_inFlightCalls s r
      have hAepoch := applyResult_loopEpoch s r
      have hAtimer := applyResult_realtimeTimer s r
      -- the final dependency check: the state after the continuation
      dsimp only
      cases k with
      | ambient ep =>
        dsimp only
        by_cases hep : ep = (applyResult s r).loopEpoch
        · rw [if_pos hep]
          by_cases hfin : (applyResult s r).isRealtimeMode = s.isRealtimeMode
          · rw [if_pos hfin]
            rw [GoodCtrl]
            dsimp only
            refine And.intro rfl (And.intro ?_ ?_)
            · intro hoff
              rw [hfin] at hoff
              have := (heps ep (by rw [hc]; exact List.mem_cons_self _ _)).2 hoff
              rw [hep, hAepoch] at this
              exact absurd this (lt_irrefl _)
            · intro ep2 hmem
              simp at hmem
          · rw [if_neg hfin]
            apply good_runLoopEffect
            · simp
            · intro ep2 hmem
              simp at hmem
        · rw [if_neg hep]
          by_cases hfin : (applyResult s r).isRealtimeMode = s.isRealtimeMode
          · rw [if_pos hfin]
            rw [GoodCtrl]
            dsimp only
            refine And.intro rfl (And.intro ?_ ?_)
            · intro hoff
              rw [hAtimer]
              rw [hfin] at hoff
              exact htmr hoff
            · intro ep2 hmem
              simp at hmem
          · rw [if_neg hfin]
            apply good_runLoopEffect
            · simp
            · intro ep2 hmem
              simp at hmem
      | focused =>
        dsimp only
        by_cases hfin : (applyResult s r).isRealtimeMode = s.isRealtimeMode
        · rw [if_pos hfin]
          rw [GoodCtrl]
          dsimp only
          refine And.intro rfl (And.intro ?_ ?_)
          · intro hoff
            rw [hAtimer]
            rw [hfin] at hoff
            exact htmr hoff
          · intro ep2 hmem
            simp at hmem
        · rw [if_neg hfin]
          apply good_runLoopEffect
          · simp
          · intro ep2 hmem
            simp at hmem

theorem good_run (s : Ctrl) (hg : GoodCtrl s) (evs : List Event) :
    GoodCtrl (run s evs).1 := by
  induction evs generalizing s with
  | nil => exact hg
  | cons e evs ih =>
    rw [run]
    exact ih _ (good_step s e hg)

theorem startCycle_isRealtimeMode (s : Ctrl) :
    (startCycle s).1.isRealtimeMode = s.isRealtimeMode := by
  rw [startCycle]
  split <;> rfl

theorem runLoopEffect_isRealtimeMode (s : Ctrl) :
    (runLoopEffect s).1.isRealtimeMode = s.isRealtimeMode := by
  rw [runLoopEffect]
  split
  · split <;> rfl
  · rw [startCycle_isRealtimeMode]

theorem applyResult_isRealtimeMode_off (s : Ctrl) (r : CallResult)
    (h : s.isRealtimeMode = false) : (applyResult s r).isRealtimeMode = false := by
  cases r <;> simp [applyResult, h]

/-- Once real-time mode is off, no event except the user's explicit
toggle ever turns it back on. -/
theorem realtime_off_step (s : Ctrl) (e : Event) (hrt : s.isRealtimeMode = false)
    (hne : e ≠ Event.toggleRealtime) : (step s e).1.isRealtimeMode = false := by
  cases e with
  | toggleRealtime => exact absurd rfl hne
  | tap =>
    rw [step, if_pos (Or.inl hrt)]
    exact hrt
  | realtimeTimerFire =>
    rw [step]
    cases ht : s.realtimeTimer with
    | none => exact hrt
    | some d => rw [startCycle_isRealtimeMode]; exact hrt
  | focusedTimerFire =>
    rw [step]
    cases ht : s.focusedTimer with
    | none => exact hrt
    | some d =>
      by_cases hf : s.isFocusedIdentification = true
      · rw [if_pos hf, runLoopEffect_isRealtimeMode]
        exact hrt
      · rw [if_neg hf]
        exact hrt
  | rateLimitTimerFire =>
    rw [step]
    cases ht : s.rateLimitTimer with
    | none => exact hrt
    | some d => exact hrt
  | complete r =>
    rw [step]
    cases hc : s.inFlightCalls with
    | nil => exact hrt
    | cons k rest =>
      have hA : (applyResult s r).isRealtimeMode = false :=
        applyResult_isRealtimeMode_off s r hrt
      dsimp only
      cases k with
      | ambient ep =>
        dsimp only
        by_cases hep : ep = (applyResult s r).loopEpoch
        · rw [if_pos hep]
          by_cases hfin : (applyResult s r).isRealtimeMode = s.isRealtimeMode
          · rw [if_pos hfin]
            exact hA
          · rw [if_neg hfin, runLoopEffect_isRealtimeMode]
            exact hA
        · rw [if_neg hep]
          by_cases hfin : (applyResult s r).isRealtimeMode = s.isRealtimeMode
          · rw [if_pos hfin]
            exact hA
          · rw [if_neg hfin, runLoopEffect_isRealtimeMode]
            exact hA
      | focused =>
        dsimp only
        by_cases hfin : (applyResult s r).isRealtimeMode = s.isRealtimeMode
        · rw [if_pos hfin]
          exact hA
        · rw [if_neg hfin, runLoopEffect_isRealtimeMode]
          exact hA

theorem realtime_off_run (s : Ctrl) (evs : List Event) (hrt : s.isRealtimeMode = false)
    (hall : ∀ e ∈ evs, e ≠ Event.toggleRealtime) :
    (run s evs).1.isRealtimeMode = false := by
  induction evs generalizing s with
  | nil => exact hrt
  | cons e evs ih =>
    rw [run]
    exact ih _ (realtime_off_step s e hrt (hall e (List.mem_cons_self _ _)))
      (fun e2 he2 => hall e2 (List.mem_cons_of_mem _ he2))

theorem runLoopEffect_off (s : Ctrl) (h : s.isRealtimeMode = false) :
    (runLoopEffect s).1.isRealtimeMode = false ∧
    (runLoopEffect s).1.realtimeTimer = none ∧
    (runLoopEffect s).1.isIdentifying = s.isIdentifying ∧
    (runLoopEffect s).1.inFlightCalls = s.inFlightCalls ∧
    (runLoopEffect s).1.rateLimitError = s.rateLimitError ∧
    (runLoopEffect s).1.appConfigError = s.appConfigError ∧
    (runLoopEffect s).1.rateLimitTimer = s.rateLimitTimer ∧
    (runLoopEffect s).2 = 0 := by
  rw [runLoopEffect]
  have hcond : ({ s with loopEpoch := s.loopEpoch + 1, realtimeTimer := none } : Ctrl).isRealtimeMode = false ∨ ({ s with loopEpoch := s.loopEpoch + 1, realtimeTimer := none } : Ctrl).isFocusedIdentification = true := Or.inl h
  rw [if_pos hcond]
  split
  · exact ⟨h, rfl, rfl, rfl, rfl, rfl, rfl, rfl⟩
  · exact ⟨h, rfl, rfl, rfl, rfl, rfl, rfl, rfl⟩

/-- Settling the only outstanding call with a result that turns
real-time mode off (a configuration or rate-limit error) leaves the
controller with real-time mode off, no pending ambient reschedule, no
in-flight call, and the error bookkeeping exactly as the catch clause
wrote it. -/
theorem complete_disables (s : Ctrl) (r : CallResult) (hg : GoodCtrl s)
    (hin : s.inFlightCalls ≠ [])
    (hr : (applyResult s r).isRealtimeMode = false) :
    (step s (Event.complete r)).1.isRealtimeMode = false ∧
    (step s (Event.complete r)).1.realtimeTimer = none ∧
    (step s (Event.complete r)).1.isIdentifying = false ∧
    (step s (Event.complete r)).1.inFlightCalls = [] ∧
    (step s (Event.complete r)).1.rateLimitError = (applyResult s r).rateLimitError ∧
    (step s (Event.complete r)).1.appConfigError = (applyResult s r).appConfigError ∧
    (step s (Event.complete r)).1.rateLimitTimer = (applyResult s r).rateLimitTimer := by
  obtain ⟨hlen, htmr, heps⟩ := hg
  rw [step]
  cases hc : s.inFlightCalls with
  | nil => exact absurd hc hin
  | cons k rest =>
    have hid : s.isIdentifying = true := by
      cases hb : s.isIdentifying
      · rw [hb, hc] at hlen; simp at hlen
      · rfl
    have hrest : rest = [] := by
      rw [hid, hc] at hlen
      simpa using hlen
    subst hrest
    have hAtimer := applyResult_realtimeTimer s r
    have hAepoch := applyResult_loopEpoch s r
    dsimp only
    cases k with
    | ambient ep =>
      dsimp only
      by_cases hep : ep = (applyResult s r).loopEpoch
      · rw [if_pos hep]
        by_cases hfin : (applyResult s r).isRealtimeMode = s.isRealtimeMode
        · rw [if_pos hfin]
          exfalso
          have hoff : s.isRealtimeMode = false := by rw [← hfin]; exact hr
          have := (heps ep (by rw [hc]; exact List.mem_cons_self _ _)).2 hoff
          rw [hep, hAepoch] at this
          exact absurd this (lt_irrefl _)
        · rw [if_neg hfin]
          have hoff := runLoopEffect_off
            ({ { (applyResult s r) with isIdentifying := false, inFlightCalls := [] }
               with realtimeTimer := some 5000 } : Ctrl) hr
          exact ⟨hoff.1, hoff.2.1, hoff.2.2.1, hoff.2.2.2.1, hoff.2.2.2.2.1,
            hoff.2.2.2.2.2.1, hoff.2.2.2.2.2.2.1⟩
      · rw [if_neg hep]
        by_cases hfin : (applyResult s r).isRealtimeMode = s.isRealtimeMode
        · rw [if_pos hfin]
          have hoff : s.isRealtimeMode = false := by rw [← hfin]; exact hr
          exact ⟨hr, by rw [hAtimer]; exact htmr hoff, rfl, rfl, rfl, rfl, rfl⟩
        · rw [if_neg hfin]
          have hoff := runLoopEffect_off
            ({ (applyResult s r) with isIdentifying := false, inFlightCalls := [] } : Ctrl) hr
          exact ⟨hoff.1, hoff.2.1, hoff.2.2.1, hoff.2.2.2.1, hoff.2.2.2.2.1,
            hoff.2.2.2.2.2.1, hoff.2.2.2.2.2.2.1⟩
    | focused =>
      dsimp only
      by_cases hfin : (applyResult s r).isRealtimeMode = s.isRealtimeMode
      · rw [if_pos hfin]
        have hoff : s.isRealtimeMode = false := by rw [← hfin]; exact hr
        exact ⟨hr, by rw [hAtimer]; exact htmr hoff, rfl, rfl, rfl, rfl, rfl⟩
      · rw [if_neg hfin]
        have hoff := runLoopEffect_off
          ({ { (applyResult s r) with isIdentifying := false, inFlightCalls := [] }
             with focusedTimer := some 5000 } : Ctrl) hr
        exact ⟨hoff.1, hoff.2.1, hoff.2.2.1, hoff.2.2.2.1, hoff.2.2.2.2.1,
          hoff.2.2.2.2.2.1, hoff.2.2.2.2.2.2.1⟩

/-- With real-time mode off and no pending ambient reschedule, timer
fires of any of the three timers issue no identification call and
preserve that configuration and the propagated configuration error. -/
theorem quiet_step (s : Ctrl) (e : Event)
    (h1 : s.isRealtimeMode = false) (h2 : s.realtimeTimer = none)
    (he : e = Event.realtimeTimerFire ∨ e = Event.focusedTimerFire ∨
      e = Event.rateLimitTimerFire) :
    (step s e).2 = 0 ∧ (step s e).1.isRealtimeMode = false ∧
    (step s e).1.realtimeTimer = none ∧
    (step s e).1.appConfigError = s.appConfigError := by
  rcases he with he | he | he
  · subst he
    rw [step]
    rw [show s.realtimeTimer = none from h2]
    exact ⟨rfl, h1, h2, rfl⟩
  · subst he
    rw [step]
    cases ht : s.focusedTimer with
    | none => exact ⟨rfl, h1, h2, rfl⟩
    | some d =>
      by_cases hf : s.isFocusedIdentification = true
      · rw [if_pos hf]
        have hoff := runLoopEffect_off
          ({ s with focusedTimer := none, isFocusedIdentification := false } : Ctrl) h1
        exact ⟨hoff.2.2.2.2.2.2.2, hoff.1, hoff.2.1, hoff.2.2.2.2.2.1⟩
      · rw [if_neg hf]
        exact ⟨rfl, h1, h2, rfl⟩
  · subst he
    rw [step]
    cases ht : s.rateLimitTimer with
    | none => exact ⟨rfl, h1, h2, rfl⟩
    | some d => exact ⟨rfl, h1, h2, rfl⟩

theorem quiet_run (s : Ctrl) (evs : List Event)
    (h1 : s.isRealtimeMode = false) (h2 : s.realtimeTimer = none)
    (hall : ∀ e ∈ evs, e = Event.realtimeTimerFire ∨ e = Event.focusedTimerFire ∨
      e = Event.rateLimitTimerFire) :
    (run s evs).2 = 0 ∧ (run s evs).1.isRealtimeMode = false ∧
    (run s evs).1.realtimeTimer = none ∧
    (run s evs).1.appConfigError = s.appConfigError := by
  induction evs generalizing s with
  | nil => exact ⟨rfl, h1, h2, rfl⟩
  | cons e evs ih =>
    have hq := quiet_step s e h1 h2 (hall e (List.mem_cons_self _ _))
    have ht := ih (step s e).1 hq.2.1 hq.2.2.1
      (fun e2 he2 => hall e2 (List.mem_cons_of_mem _ he2))
    rw [run]
    refine ⟨?_, ht.2.1, ht.2.2.1, ?_⟩
    · show (step s e).2 + (run (step s e).1 evs).2 = 0
      rw [hq.1, ht.1]
    · show (run (step s e).1 evs).1.appConfigError = s.appConfigError
      rw [ht.2.2.2, hq.2.2.2]

/-! ### Claim C1 — at most one identification call in flight -/

/-- Claim C1: for every interleaving of events on one controller
instance, at most one identification call is in flight at any time, and
while a call is outstanding any new trigger — a tap or an ambient timer
fire — issues no call and leaves the outstanding calls untouched (a tap
is dropped without any state change at all). -/
theorem c1_single_in_flight (evs : List Event) :
    (run Ctrl.init evs).1.inFlightCalls.length ≤ 1 ∧
    ((run Ctrl.init evs).1.isIdentifying = true →
      (step (run Ctrl.init evs).1 Event.tap).2 = 0 ∧
      (step (run Ctrl.init evs).1 Event.tap).1 = (run Ctrl.init evs).1 ∧
      (step (run Ctrl.init evs).1 Event.realtimeTimerFire).2 = 0 ∧
      (step (run Ctrl.init evs).1 Event.realtimeTimerFire).1.inFlightCalls
        = (run Ctrl.init evs).1.inFlightCalls) := by
  obtain ⟨hlen, htmr, heps⟩ := good_run Ctrl.init good_init evs
  constructor
  · rw [hlen]
    split <;> omega
  · intro hid
    refine ⟨?_, ?_, ?_, ?_⟩
    · rw [step, if_pos (Or.inr hid)]
    · rw [step, if_pos (Or.inr hid)]
    · rw [step]
      cases ht : (run Ctrl.init evs).1.realtimeTimer with
      | none => rfl
      | some d => rw [startCycle, if_pos hid]
    · rw [step]
      cases ht : (run Ctrl.init evs).1.realtimeTimer with
      | none => rfl
      | some d => rw [startCycle, if_pos hid]

/-- Claim C1 witness: after enabling real-time mode one ambient call is
in flight, and both a tap and a timer fire in that state issue no
call. -/
theorem c1_witness :
    ((run Ctrl.init [Event.toggleRealtime]).1.isIdentifying = true) ∧
    ((step (run Ctrl.init [Event.toggleRealtime]).1 Event.tap).2 = 0 ∧
     (step (run Ctrl.init [Event.toggleRealtime]).1 Event.tap).1
       = (run Ctrl.init [Event.toggleRealtime]).1 ∧
     (step (run Ctrl.init [Event.toggleRealtime]).1 Event.realtimeTimerFire).2 = 0 ∧
     (step (run Ctrl.init [Event.toggleRealtime]).1 Event.realtimeTimerFire).1.inFlightCalls
       = (run Ctrl.init [Event.toggleRealtime]).1.inFlightCalls) :=
  ⟨by decide, (c1_single_in_flight [Event.toggleRealtime]).2 (by decide)⟩

/-! ### Claim C4 — rate-limit cooldown -/

/-- The controller state right after the outstanding call settles with a
rate-limit error. -/
def afterRateLimit (evs : List Event) (m : List Char) : Ctrl :=
  (step (run Ctrl.init evs).1 (Event.complete (CallResult.rateLimitErr m))).1

/-- Claim C4: whenever an identification call returns a rate-limit
error, ambient mode is forcibly disabled, the 5000 ms cooldown holds the
error message, no ambient reschedule is pending; when the cooldown
expires the controller is idle with no error message; and ambient
polling never self-resumes — only the user's explicit toggle can turn it
back on. -/
theorem c4_rate_limit (evs : List Event) (m : List Char)
    (hin : (run Ctrl.init evs).1.inFlightCalls ≠ []) :
    ((afterRateLimit evs m).isRealtimeMode = false ∧
     (afterRateLimit evs m).rateLimitError = some m ∧
     (afterRateLimit evs m).rateLimitTimer = some 5000 ∧
     (afterRateLimit evs m).realtimeTimer = none ∧
     (afterRateLimit evs m).isIdentifying = false) ∧
    ((step (afterRateLimit evs m) Event.rateLimitTimerFire).1.rateLimitError = none ∧
     (step (afterRateLimit evs m) Event.rateLimitTimerFire).1.isRealtimeMode = false ∧
     (step (afterRateLimit evs m) Event.rateLimitTimerFire).1.isIdentifying = false ∧
     (step (afterRateLimit evs m) Event.rateLimitTimerFire).2 = 0) ∧
    (∀ evs2, (∀ e ∈ evs2, e ≠ Event.toggleRealtime) →
       (run (afterRateLimit evs m) evs2).1.isRealtimeMode = false) := by
  have hg := good_run Ctrl.init good_init evs
  have hd := complete_disables (run Ctrl.init evs).1 (CallResult.rateLimitErr m) hg hin rfl
  have hblock1 : (afterRateLimit evs m).isRealtimeMode = false ∧
      (afterRateLimit evs m).rateLimitError = some m ∧
      (afterRateLimit evs m).rateLimitTimer = some 5000 ∧
      (afterRateLimit evs m).realtimeTimer = none ∧
      (afterRateLimit evs m).isIdentifying = false := by
    refine ⟨hd.1, ?_, ?_, hd.2.1, hd.2.2.1⟩
    · rw [afterRateLimit.eq_def, hd.2.2.2.2.1]
      rfl
    · rw [afterRateLimit.eq_def, hd.2.2.2.2.2.2]
      rfl
  refine ⟨hblock1, ?_, ?_⟩
  · rw [step]
    rw [show (afterRateLimit evs m).rateLimitTimer = some 5000 from hblock1.2.2.1]
    exact ⟨rfl, hblock1.1, hblock1.2.2.2.2, rfl⟩
  · intro evs2 hall
    exact realtime_off_run _ evs2 hblock1.1 hall

/-- Claim C4 witness: the theorem at the trace that enables real-time
mode (issuing one ambient call) and the message "limit". -/
theorem c4_witness :
    ((run Ctrl.init [Event.toggleRealtime]).1.inFlightCalls ≠ []) ∧
    (((afterRateLimit [Event.toggleRealtime] ("limit".toList)).isRealtimeMode = false ∧
      (afterRateLimit [Event.toggleRealtime] ("limit".toList)).rateLimitError
        = some ("limit".toList) ∧
      (afterRateLimit [Event.toggleRealtime] ("limit".toList)).rateLimitTimer = some 5000 ∧
      (afterRateLimit [Event.toggleRealtime] ("limit".toList)).realtimeTimer = none ∧
      (afterRateLimit [Event.toggleRealtime] ("limit".toList)).isIdentifying = false) ∧
     ((step (afterRateLimit [Event.toggleRealtime] ("limit".toList))
         Event.rateLimitTimerFire).1.rateLimitError = none ∧
      (step (afterRateLimit [Event.toggleRealtime] ("limit".toList))
         Event.rateLimitTimerFire).1.isRealtimeMode = false ∧
      (step (afterRateLimit [Event.toggleRealtime] ("limit".toList))
         Event.rateLimitTimerFire).1.isIdentifying = false ∧
      (step (afterRateLimit [Event.toggleRealtime] ("limit".toList))
         Event.rateLimitTimerFire).2 = 0) ∧
     (∀ evs2, (∀ e ∈ evs2, e ≠ Event.toggleRealtime) →
        (run (afterRateLimit [Event.toggleRealtime] ("limit".toList)) evs2).1.isRealtimeMode
          = false)) :=
  ⟨by decide, c4_rate_limit [Event.toggleRealtime] ("limit".toList) (by decide)⟩

/-! ### Claim C5 — configuration error blocks the loop -/

/-- The controller state right after the outstanding call settles with a
configuration error. -/
def afterConfigError (evs : List Event) (m : List Char) : Ctrl :=
  (step (run Ctrl.init evs).1 (Event.complete (CallResult.configErr m))).1

/-- Claim C5: after any identification call returns a configuration
error, ambient mode is disabled, the loop holds no pending reschedule,
the error is propagated to the application, and for any sequence of
subsequent timer fires zero additional identification calls are issued
while the propagated error persists; moreover the application's
`resetState` deliberately preserves the configuration error, so the
condition does not self-clear. -/
theorem c5_config_error (evs : List Event) (m : List Char)
    (hin : (run Ctrl.init evs).1.inFlightCalls ≠ []) :
    ((afterConfigError evs m).isRealtimeMode = false ∧
     (afterConfigError evs m).appConfigError = some m ∧
     (afterConfigError evs m).realtimeTimer = none ∧
     (afterConfigError evs m).isIdentifying = false) ∧
    (∀ evs2, (∀ e ∈ evs2, e = Event.realtimeTimerFire ∨ e = Event.focusedTimerFire ∨
        e = Event.rateLimitTimerFire) →
      (run (afterConfigError evs m) evs2).2 = 0 ∧
      (run (afterConfigError evs m) evs2).1.isRealtimeMode = false ∧
      (run (afterConfigError evs m) evs2).1.appConfigError = some m) ∧
    (∀ a : AppState, (resetState a).configError = a.configError) := by
  have hg := good_run Ctrl.init good_init evs
  have hd := complete_disables (run Ctrl.init evs).1 (CallResult.configErr m) hg hin rfl
  have hcfg : (afterConfigError evs m).appConfigError = some m := by
    rw [afterConfigError.eq_def, hd.2.2.2.2.2.1]
    rfl
  refine ⟨⟨hd.1, hcfg, hd.2.1, hd.2.2.1⟩, ?_, fun a => rfl⟩
  intro evs2 hall
  have hq := quiet_run (afterConfigError evs m) evs2 hd.1 hd.2.1 hall
  refine ⟨hq.1, hq.2.1, ?_⟩
  rw [hq.2.2.2, hcfg]

/-- Claim C5 witness: the theorem at the trace that enables real-time
mode (issuing one ambient call) and the message "cfg". -/
theorem c5_witness :
    ((run Ctrl.init [Event.toggleRealtime]).1.inFlightCalls ≠ []) ∧
    (((afterConfigError [Event.toggleRealtime] ("cfg".toList)).isRealtimeMode = false ∧
      (afterConfigError [Event.toggleRealtime] ("cfg".toList)).appConfigError
        = some ("cfg".toList) ∧
      (afterConfigError [Event.toggleRealtime] ("cfg".toList)).realtimeTimer = none ∧
      (afterConfigError [Event.toggleRealtime] ("cfg".toList)).isIdentifying = false) ∧
     (∀ evs2, (∀ e ∈ evs2, e = Event.realtimeTimerFire ∨ e = Event.focusedTimerFire ∨
         e = Event.rateLimitTimerFire) →
       (run (afterConfigError [Event.toggleRealtime] ("cfg".toList)) evs2).2 = 0 ∧
       (run (afterConfigError [Event.toggleRealtime] ("cfg".toList)) evs2).1.isRealtimeMode
         = false ∧
       (run (afterConfigError [Event.toggleRealtime] ("cfg".toList)) evs2).1.appConfigError
         = some ("cfg".toList)) ∧
     (∀ a : AppState, (resetState a).configError = a.configError)) :=
  ⟨by decide, c5_config_error [Event.toggleRealtime] ("cfg".toList) (by decide)⟩
